import Mathlib

/-!
Verification of the CwaWeather backend (src/server.js), a small Express
gateway that resolves a location code, fetches a forecast from the CWA
upstream API, normalizes the per-element time series into flattened
forecast slots, and serializes JSON responses.

The embedding mirrors the JavaScript source: JS `undefined` property
reads that would throw a TypeError become `Except.error`; JS objects
become structures; the upstream payload and the produced JSON bodies
are explicit data.
-/

namespace Cwa

/-- The `parameter` object of one time entry of a CWA weather element
(`{parameterName, ...}`); only `parameterName` is read by the code. -/
structure Parameter where
  parameterName : String
  deriving DecidableEq

/-- One entry of a weather element's `time` array: `startTime`, `endTime`
and an optional `parameter` (absent = JS `undefined`). -/
structure TimeEntry where
  startTime : String
  endTime : String
  parameter : Option Parameter
  deriving DecidableEq

/-- One upstream weather element: `{elementName, time: [...]}`. -/
structure WeatherElement where
  elementName : String
  time : List TimeEntry
  deriving DecidableEq

/-- One entry of the upstream `records.location` array. -/
structure LocationData where
  locationName : String
  weatherElement : List WeatherElement
  deriving DecidableEq

/-- The `records` object of the upstream body. -/
structure Records where
  datasetDescription : String
  location : List LocationData
  deriving DecidableEq

/-- The upstream response body (`response.data`). -/
structure UpBody where
  records : Records
  deriving DecidableEq

/-- The per-slot forecast record built by the loop at server.js:88-126. -/
structure Forecast where
  startTime : String
  endTime : String
  weather : String
  rain : String
  minTemp : String
  maxTemp : String
  comfort : String
  windSpeed : String
  deriving DecidableEq

/-- The aggregate `weatherData` object (server.js:79-83). -/
structure WeatherData where
  city : String
  updateTime : String
  forecasts : List Forecast
  deriving DecidableEq

/-- The fresh forecast object created at the top of each loop iteration
(server.js:89-98), with `startTime`/`endTime` from element 0's i-th time
entry and all other fields the empty string. -/
def initForecast (te : TimeEntry) : Forecast :=
  { startTime := te.startTime, endTime := te.endTime,
    weather := "", rain := "", minTemp := "", maxTemp := "",
    comfort := "", windSpeed := "" }

/-- One step of the `weatherElements.forEach` body (server.js:100-123):
reads `element.time[i].parameter` (throwing if `time[i]` is undefined),
then dispatches on `element.elementName`. `Wx`/`CI`/`WS` read
`value.parameterName` unguarded (throwing if the parameter is absent);
`PoP`/`MinT`/`MaxT` default to "0" / "-" when it is absent; any other
tag leaves the forecast unchanged. -/
def applyElement (i : Nat) (f : Forecast) (e : WeatherElement) : Except String Forecast :=
  match e.time[i]? with
  | none => .error "TypeError: Cannot read properties of undefined (reading parameter)"
  | some te =>
    match e.elementName, te.parameter with
    | "Wx", some p => .ok { f with weather := p.parameterName }
    | "Wx", none => .error "TypeError: Cannot read properties of undefined (reading parameterName)"
    | "PoP", v => .ok { f with rain := (match v with | some p => p.parameterName | none => "0") ++ "%" }
    | "MinT", v => .ok { f with minTemp := (match v with | some p => p.parameterName | none => "-") ++ "°C" }
    | "MaxT", v => .ok { f with maxTemp := (match v with | some p => p.parameterName | none => "-") ++ "°C" }
    | "CI", some p => .ok { f with comfort := p.parameterName }
    | "CI", none => .error "TypeError: Cannot read properties of undefined (reading parameterName)"
    | "WS", some p => .ok { f with windSpeed := p.parameterName }
    | "WS", none => .error "TypeError: Cannot read properties of undefined (reading parameterName)"
    | _, _ => .ok f

/-- The whole `weatherElements.forEach` call for slot index `i`: the
elements are applied in array order, stopping at the first thrown
TypeError (a throw inside `forEach` aborts the iteration). -/
def applyAll (i : Nat) (f : Forecast) : List WeatherElement → Except String Forecast
  | [] => .ok f
  | e :: es =>
    match applyElement i f e with
    | .ok g => applyAll i g es
    | .error s => .error s

/-- Construction of the forecast for slot index `i` (server.js:89-123):
the fresh record reads `weatherElements[0].time[i]`, then every element
is scanned. -/
def buildSlot (elems : List WeatherElement) (e0t : List TimeEntry) (i : Nat) : Except String Forecast :=
  match e0t[i]? with
  | none => .error "TypeError: Cannot read properties of undefined (reading startTime)"
  | some te => applyAll i (initForecast te) elems

/-- The `for` loop over slot indices (server.js:88-126), pushing one
forecast per index; an exception at any index aborts the loop. -/
def buildSlots (elems : List WeatherElement) (e0t : List TimeEntry) : List Nat → Except String (List Forecast)
  | [] => .ok []
  | i :: is =>
    match buildSlot elems e0t i with
    | .error s => .error s
    | .ok f =>
      match buildSlots elems e0t is with
      | .error s => .error s
      | .ok fs => .ok (f :: fs)

/-- Normalization of one location entry (server.js:79-126): `city` and
`updateTime` pass through verbatim; `timeCount` is the length of
`weatherElements[0].time` (reading it throws when the element list is
empty); the loop then builds one slot per index `0 ≤ i < timeCount`. -/
def normalizeLocation (datasetDescription : String) (ld : LocationData) : Except String WeatherData :=
  match ld.weatherElement with
  | [] => .error "TypeError: Cannot read properties of undefined (reading time)"
  | e0 :: _ =>
    match buildSlots ld.weatherElement e0.time (List.range e0.time.length) with
    | .error s => .error s
    | .ok fs => .ok { city := ld.locationName, updateTime := datasetDescription, forecasts := fs }

/-- Whether an `Except` value is a success. -/
def exceptOk : Except String α → Bool
  | .ok _ => true
  | .error _ => false

/-- JSON values, used for the response bodies the server serializes and
for the upstream error body surfaced in `details`. -/
inductive Json where
  | str (s : String)
  | num (n : Int)
  | bool (b : Bool)
  | arr (items : List Json)
  | obj (fields : List (String × Json))

/-- Field lookup on a JSON object (JS property read; `none` = undefined,
also for reads on non-objects). -/
def Json.getField : Json → String → Option Json
  | .obj fs, k => List.lookup k fs
  | _, _ => none

/-- Whether a JSON body has a given top-level field. -/
def Json.hasField (j : Json) (k : String) : Bool :=
  (j.getField k).isSome

/-- JS truthiness of a JSON value (empty string, 0 and false are falsy;
arrays and objects are always truthy). -/
def Json.truthy : Json → Bool
  | .str s => !(s == "")
  | .num n => !(n == 0)
  | .bool b => b
  | .arr _ => true
  | .obj _ => true

/-- Serialization of one forecast slot into the response JSON. -/
def Forecast.toJson (f : Forecast) : Json :=
  .obj [("startTime", .str f.startTime), ("endTime", .str f.endTime),
        ("weather", .str f.weather), ("rain", .str f.rain),
        ("minTemp", .str f.minTemp), ("maxTemp", .str f.maxTemp),
        ("comfort", .str f.comfort), ("windSpeed", .str f.windSpeed)]

/-- Serialization of the aggregate weather data. -/
def WeatherData.toJson (w : WeatherData) : Json :=
  .obj [("city", .str w.city), ("updateTime", .str w.updateTime),
        ("forecasts", .arr (w.forecasts.map Forecast.toJson))]

/-- An HTTP response: a status code and a JSON body. -/
structure HttpResponse where
  status : Nat
  body : Json

/-- The static location table (server.js:15-21); `Object.keys` order is
the literal insertion order. -/
def LOCATION_MAP : List (String × String) :=
  [("kaohsiung", "高雄市"), ("taipei", "臺北市"),
   ("taichung", "臺中市"), ("miaoli", "苗栗縣")]

/-- The own property names of `Object.prototype` in Node (V8). An object
literal inherits these, so `LOCATION_MAP[code]` for any of them yields a
truthy function (or, for `__proto__`, the prototype object itself)
rather than `undefined`. -/
def objectPrototypeProps : List String :=
  ["constructor", "__defineGetter__", "__defineSetter__", "hasOwnProperty",
   "__lookupGetter__", "__lookupSetter__", "isPrototypeOf",
   "propertyIsEnumerable", "toString", "valueOf", "__proto__",
   "toLocaleString"]

/-- The value of the JS property read `LOCATION_MAP[locationCode]`
(server.js:37): an own entry's string, a truthy value inherited from
`Object.prototype` (carrying the property name), or `undefined`. -/
inductive PropValue where
  | str (s : String)
  | inherited (n : String)
  | undefinedVal
  deriving DecidableEq

/-- `LOCATION_MAP[locationCode]`: own properties shadow the prototype
chain; names of `Object.prototype` members resolve to the inherited
member; everything else is `undefined`. -/
def locationMapGet (code : String) : PropValue :=
  match List.lookup code LOCATION_MAP with
  | some name => .str name
  | none => if code ∈ objectPrototypeProps then .inherited code else .undefinedVal

/-- JS truthiness of the resolved value, as tested by `!locationName`
(server.js:40): `undefined` and the empty string are falsy; inherited
functions/objects are truthy. -/
def PropValue.truthy : PropValue → Bool
  | .str s => !(s == "")
  | .inherited _ => true
  | .undefinedVal => false

/-- Template-literal rendering of the resolved value, as interpolated
into the 404 message (server.js:74): strings verbatim; inherited members
render through their V8 string conversion (`__proto__` resolves to the
prototype object). -/
def PropValue.render : PropValue → String
  | .str s => s
  | .inherited n =>
    if n == "__proto__" then "[object Object]"
    else "function " ++ n ++ "() \x7b [native code] \x7d"
  | .undefinedVal => "undefined"

/-- Outcome of the single outbound `axios.get` call: a successful
response carries `response.data`; an HTTP-error rejection carries
`error.response.status` and `error.response.data`; a transport failure
has no response object. -/
inductive UpstreamOutcome where
  | success (data : UpBody)
  | httpError (status : Nat) (data : Json)
  | transport

/-- The JS check `if (!CWA_API_KEY)`: true when the environment variable
is unset or the empty string. -/
def keyMissing : Option String → Bool
  | none => true
  | some s => s == ""

/-- The generic catch-all error body (server.js:145-148). -/
def genericErrorBody : Json :=
  .obj [("error", .str "伺服器錯誤"), ("message", .str "無法取得天氣資料，請稍後再試")]

/-- `error.response.data.message || "無法取得天氣資料"` (server.js:139). -/
def upstreamMessage (d : Json) : Json :=
  match d.getField "message" with
  | some v => if v.truthy then v else .str "無法取得天氣資料"
  | none => .str "無法取得天氣資料"

/-- The full weather route handler `getWeatherByLocation`
(server.js:33-150) as a function of the location code, the configured
API key, and the outcome of the outbound call. The resolution step is
the JS property read with its prototype chain: the 400 branch fires only
when the resolved value is falsy, so a code naming an `Object.prototype`
member skips it. A TypeError thrown by normalization is caught by the
same `catch` as a transport failure and yields the generic 500 body. -/
def getWeatherByLocation (locationCode : String) (apiKey : Option String)
    (upstream : UpstreamOutcome) : HttpResponse :=
  if (locationMapGet locationCode).truthy = false then
    { status := 400,
      body := .obj [("error", .str "輸入地區代碼無效"),
                    ("message", .str ("地區代碼 \x27" ++ locationCode ++ "\x27 尚未定義或不支援。")),
                    ("supported_locations", .arr ((LOCATION_MAP.map Prod.fst).map Json.str))] }
  else if keyMissing apiKey then
    { status := 500,
      body := .obj [("error", .str "伺服器設定錯誤"),
                    ("message", .str "請在 .env 檔案中設定 CWA_API_KEY")] }
  else
    match upstream with
    | .httpError st d =>
      { status := st,
        body := .obj [("error", .str "CWA API 錯誤"),
                      ("message", upstreamMessage d),
                      ("details", d)] }
    | .transport => { status := 500, body := genericErrorBody }
    | .success ub =>
      match ub.records.location.head? with
      | none =>
        { status := 404,
          body := .obj [("error", .str "查無資料"),
                        ("message", .str ("無法取得 " ++ (locationMapGet locationCode).render
                          ++ " 的天氣資料"))] }
      | some ld =>
        match normalizeLocation ub.records.datasetDescription ld with
        | .error _ => { status := 500, body := genericErrorBody }
        | .ok wd => { status := 200, body := .obj [("success", .bool true), ("data", wd.toJson)] }

/-- The unmatched-route handler (server.js:180-184): its body has only
an `error` field. -/
def notFoundResponse : HttpResponse :=
  { status := 404, body := .obj [("error", .str "找不到此路徑")] }

/-- The final error-handling middleware (server.js:171-177), echoing the
uncaught exception message. -/
def errorMiddlewareResponse (msg : String) : HttpResponse :=
  { status := 500, body := .obj [("error", .str "伺服器錯誤"), ("message", .str msg)] }

/-- The per-tag forecast field written by the dispatch switch. -/
def fieldOf (tag : String) (f : Forecast) : String :=
  match tag with
  | "Wx" => f.weather
  | "PoP" => f.rain
  | "MinT" => f.minTemp
  | "MaxT" => f.maxTemp
  | "CI" => f.comfort
  | "WS" => f.windSpeed
  | _ => ""

/-! ### Helper lemmas about the normalizer -/

theorem applyElement_start_end {i : Nat} {f : Forecast} {e : WeatherElement} {g : Forecast}
    (h : applyElement i f e = .ok g) :
    g.startTime = f.startTime ∧ g.endTime = f.endTime := by
  unfold applyElement at h
  split at h
  · exact Except.noConfusion h
  · split at h <;> first
      | exact Except.noConfusion h
      | (injection h with h; subst h; exact ⟨rfl, rfl⟩)

theorem applyAll_start_end {i : Nat} {es : List WeatherElement} :
    ∀ {f g : Forecast}, applyAll i f es = .ok g →
    g.startTime = f.startTime ∧ g.endTime = f.endTime := by
  induction es with
  | nil =>
    intro f g h
    unfold applyAll at h
    injection h with h
    subst h
    exact ⟨rfl, rfl⟩
  | cons e es ih =>
    intro f g h
    unfold applyAll at h
    split at h
    · rename_i g1 hg1
      obtain ⟨h1, h2⟩ := ih h
      obtain ⟨h3, h4⟩ := applyElement_start_end hg1
      exact ⟨h1.trans h3, h2.trans h4⟩
    · exact Except.noConfusion h

theorem applyElement_err_short {i : Nat} {e : WeatherElement}
    (h : e.time[i]? = none) (f : Forecast) :
    exceptOk (applyElement i f e) = false := by
  simp [applyElement, exceptOk, h]

theorem applyElement_err_absent {i : Nat} {e : WeatherElement} {te : TimeEntry}
    (hte : e.time[i]? = some te) (hp : te.parameter = none)
    (htag : e.elementName = "Wx" ∨ e.elementName = "CI" ∨ e.elementName = "WS")
    (f : Forecast) :
    exceptOk (applyElement i f e) = false := by
  rcases htag with h | h | h <;> simp [applyElement, exceptOk, hte, hp, h]

theorem applyAll_err_mem {i : Nat} {es : List WeatherElement} {e : WeatherElement}
    (hmem : e ∈ es) (herr : ∀ f, exceptOk (applyElement i f e) = false) :
    ∀ f, exceptOk (applyAll i f es) = false := by
  induction es with
  | nil => cases hmem
  | cons e1 es ih =>
    intro f
    rcases List.mem_cons.mp hmem with h1 | h1
    · subst h1
      unfold applyAll
      split
      · rename_i g hg
        have := herr f
        rw [hg] at this
        exact absurd this (by simp [exceptOk])
      · rfl
    · unfold applyAll
      split
      · exact ih h1 _
      · rfl

theorem buildSlot_err {elems : List WeatherElement} {e0t : List TimeEntry} {i : Nat}
    {e : WeatherElement} (hmem : e ∈ elems)
    (herr : ∀ f, exceptOk (applyElement i f e) = false) :
    exceptOk (buildSlot elems e0t i) = false := by
  unfold buildSlot
  split
  · rfl
  · exact applyAll_err_mem hmem herr _

theorem buildSlots_err {elems : List WeatherElement} {e0t : List TimeEntry}
    {is : List Nat} {i : Nat} (hmem : i ∈ is)
    (herr : exceptOk (buildSlot elems e0t i) = false) :
    exceptOk (buildSlots elems e0t is) = false := by
  induction is with
  | nil => cases hmem
  | cons j js ih =>
    rcases List.mem_cons.mp hmem with h1 | h1
    · subst h1
      unfold buildSlots
      cases hslot : buildSlot elems e0t i with
      | error s => rfl
      | ok f =>
        rw [hslot] at herr
        exact absurd herr (by simp [exceptOk])
    · unfold buildSlots
      cases hslot : buildSlot elems e0t j with
      | error s => rfl
      | ok f =>
        cases hrest : buildSlots elems e0t js with
        | error s => rfl
        | ok fs =>
          have := ih h1
          rw [hrest] at this
          exact absurd this (by simp [exceptOk])

theorem normalizeLocation_err {d : String} {ld : LocationData}
    {e0 : WeatherElement} {rest : List WeatherElement}
    (hw : ld.weatherElement = e0 :: rest)
    (herr : exceptOk (buildSlots ld.weatherElement e0.time (List.range e0.time.length)) = false) :
    exceptOk (normalizeLocation d ld) = false := by
  rw [hw] at herr
  cases hb : buildSlots (e0 :: rest) e0.time (List.range e0.time.length) with
  | error s => simp [normalizeLocation, hw, hb]; rfl
  | ok fs =>
    rw [hb] at herr
    exact absurd herr (by simp [exceptOk])

theorem buildSlots_spec {elems : List WeatherElement} {e0t : List TimeEntry} :
    ∀ {is : List Nat} {l : List Forecast}, buildSlots elems e0t is = .ok l →
    l.length = is.length ∧
    ∀ (k j : Nat), is[k]? = some j → ∃ f, l[k]? = some f ∧ buildSlot elems e0t j = .ok f := by
  intro is
  induction is with
  | nil =>
    intro l h
    unfold buildSlots at h
    injection h with h
    subst h
    exact ⟨rfl, by intro k j hj; simp at hj⟩
  | cons i is ih =>
    intro l h
    unfold buildSlots at h
    cases hslot : buildSlot elems e0t i with
    | error s => rw [hslot] at h; exact Except.noConfusion h
    | ok f =>
      rw [hslot] at h
      cases hrest : buildSlots elems e0t is with
      | error s => rw [hrest] at h; exact Except.noConfusion h
      | ok fs =>
        rw [hrest] at h
        injection h with h
        subst h
        obtain ⟨hlen, hget⟩ := ih hrest
        refine ⟨by simp [hlen], ?_⟩
        intro k j hj
        cases k with
        | zero =>
          simp at hj
          subst hj
          exact ⟨f, by simp, hslot⟩
        | succ k =>
          simp only [List.getElem?_cons_succ] at hj ⊢
          exact hget k j hj

/-- The absent-parameter defaults of the dispatch switch: `PoP` writes
`"0%"`, `MinT` and `MaxT` write `"-°C"`. -/
theorem applyElement_absent_defaults {i : Nat} {e : WeatherElement} {te : TimeEntry}
    (hte : e.time[i]? = some te) (hp : te.parameter = none) (f : Forecast) :
    (e.elementName = "PoP" → applyElement i f e = .ok { f with rain := "0%" }) ∧
    (e.elementName = "MinT" → applyElement i f e = .ok { f with minTemp := "-°C" }) ∧
    (e.elementName = "MaxT" → applyElement i f e = .ok { f with maxTemp := "-°C" }) := by
  refine ⟨?_, ?_, ?_⟩ <;> intro hn <;> simp [applyElement, hte, hp, hn]

/-- The present-parameter writes of the dispatch switch: `PoP` suffixes
the display name with `%`, `MinT`/`MaxT` with `°C`. -/
theorem applyElement_present_suffix {i : Nat} {e : WeatherElement} {te : TimeEntry}
    {p : Parameter} (hte : e.time[i]? = some te) (hp : te.parameter = some p) (f : Forecast) :
    (e.elementName = "PoP" → applyElement i f e = .ok { f with rain := p.parameterName ++ "%" }) ∧
    (e.elementName = "MinT" → applyElement i f e = .ok { f with minTemp := p.parameterName ++ "°C" }) ∧
    (e.elementName = "MaxT" → applyElement i f e = .ok { f with maxTemp := p.parameterName ++ "°C" }) := by
  refine ⟨?_, ?_, ?_⟩ <;> intro hn <;> simp [applyElement, hte, hp, hn]

/-- Each branch of the dispatch switch writes only the field belonging
to its own tag; every other field passes through unchanged. -/
theorem applyElement_writes_only {i : Nat} {f : Forecast} {e : WeatherElement} {g : Forecast}
    (h : applyElement i f e = .ok g) :
    (e.elementName ≠ "Wx" → g.weather = f.weather) ∧
    (e.elementName ≠ "PoP" → g.rain = f.rain) ∧
    (e.elementName ≠ "MinT" → g.minTemp = f.minTemp) ∧
    (e.elementName ≠ "MaxT" → g.maxTemp = f.maxTemp) ∧
    (e.elementName ≠ "CI" → g.comfort = f.comfort) ∧
    (e.elementName ≠ "WS" → g.windSpeed = f.windSpeed) := by
  unfold applyElement at h
  split at h
  · exact Except.noConfusion h
  · split at h <;>
      first
        | exact Except.noConfusion h
        | (injection h with h; subst h;
           refine ⟨?_, ?_, ?_, ?_, ?_, ?_⟩ <;> intro hne <;> simp_all)

/-- A forecast field of a tag not named by an element is unchanged by
applying that element. -/
theorem fieldOf_preserved {i : Nat} {f : Forecast} {e : WeatherElement} {g : Forecast}
    (h : applyElement i f e = .ok g) {tag : String} (hne : e.elementName ≠ tag) :
    fieldOf tag g = fieldOf tag f := by
  obtain ⟨h1, h2, h3, h4, h5, h6⟩ := applyElement_writes_only h
  unfold fieldOf
  split
  · exact h1 hne
  · exact h2 hne
  · exact h3 hne
  · exact h4 hne
  · exact h5 hne
  · exact h6 hne
  · rfl

/-- A forecast field of a tag named by no element of a list is
unchanged by the whole scan of that list. -/
theorem applyAll_fieldOf_preserved {i : Nat} {tag : String} :
    ∀ {ys : List WeatherElement}, (∀ e ∈ ys, e.elementName ≠ tag) →
    ∀ {m g : Forecast}, applyAll i m ys = .ok g → fieldOf tag g = fieldOf tag m := by
  intro ys
  induction ys with
  | nil =>
    intro _ m g h
    unfold applyAll at h
    injection h with h
    subst h
    rfl
  | cons e es ih =>
    intro hys m g h
    unfold applyAll at h
    cases he : applyElement i m e with
    | error s => rw [he] at h; exact Except.noConfusion h
    | ok g1 =>
      rw [he] at h
      have hrest := ih (fun e2 he2 => hys e2 (List.mem_cons_of_mem _ he2)) h
      rw [hrest, fieldOf_preserved he (hys e (List.mem_cons_self _ _))]

/-- The element scan splits across list append, propagating the first
error. -/
theorem applyAll_append {i : Nat} {ys : List WeatherElement} :
    ∀ {xs : List WeatherElement} {f : Forecast},
    applyAll i f (xs ++ ys) =
      match applyAll i f xs with
      | .ok g => applyAll i g ys
      | .error s => .error s := by
  intro xs
  induction xs with
  | nil => intro f; rfl
  | cons e es ih =>
    intro f
    rw [List.cons_append]
    show (match applyElement i f e with
          | .ok g => applyAll i g (es ++ ys)
          | .error s => .error s) =
        match (match applyElement i f e with
               | .ok g => applyAll i g es
               | .error s => .error s) with
        | .ok g => applyAll i g ys
        | .error s => .error s
    cases applyElement i f e with
    | error s => rfl
    | ok g => dsimp only; exact ih

/-- The value the dispatch switch writes for its own tag depends only
on the element and the slot index, not on the forecast being updated. -/
theorem applyElement_writes_value {i : Nat} {f : Forecast} {e : WeatherElement}
    {te : TimeEntry} {g : Forecast}
    (hte : e.time[i]? = some te) (h : applyElement i f e = .ok g) :
    (e.elementName = "Wx" → ∃ p, te.parameter = some p ∧ g.weather = p.parameterName) ∧
    (e.elementName = "PoP" →
      g.rain = (match te.parameter with | some p => p.parameterName | none => "0") ++ "%") ∧
    (e.elementName = "MinT" →
      g.minTemp = (match te.parameter with | some p => p.parameterName | none => "-") ++ "°C") ∧
    (e.elementName = "MaxT" →
      g.maxTemp = (match te.parameter with | some p => p.parameterName | none => "-") ++ "°C") ∧
    (e.elementName = "CI" → ∃ p, te.parameter = some p ∧ g.comfort = p.parameterName) ∧
    (e.elementName = "WS" → ∃ p, te.parameter = some p ∧ g.windSpeed = p.parameterName) := by
  refine ⟨?_, ?_, ?_, ?_, ?_, ?_⟩ <;> intro htag
  · cases hp : te.parameter with
    | none => exact absurd h (by simp [applyElement, hte, htag, hp])
    | some p =>
      refine ⟨p, rfl, ?_⟩
      simp [applyElement, hte, htag, hp] at h
      subst h
      rfl
  · simp [applyElement, hte, htag] at h
    subst h
    rfl
  · simp [applyElement, hte, htag] at h
    subst h
    rfl
  · simp [applyElement, hte, htag] at h
    subst h
    rfl
  · cases hp : te.parameter with
    | none => exact absurd h (by simp [applyElement, hte, htag, hp])
    | some p =>
      refine ⟨p, rfl, ?_⟩
      simp [applyElement, hte, htag, hp] at h
      subst h
      rfl
  · cases hp : te.parameter with
    | none => exact absurd h (by simp [applyElement, hte, htag, hp])
    | some p =>
      refine ⟨p, rfl, ?_⟩
      simp [applyElement, hte, htag, hp] at h
      subst h
      rfl

/-- Every canonical name in the static table is non-empty. -/
theorem lookup_name_nonempty {code name : String}
    (hc : List.lookup code LOCATION_MAP = some name) : name ≠ "" := by
  simp only [LOCATION_MAP, List.lookup] at hc
  repeat' split at hc
  all_goals first
    | exact Option.noConfusion hc
    | (injection hc with hc; subst hc; decide)

/-- An own entry of the table resolves to its string, which is truthy
(all configured names are non-empty). -/
theorem locationMapGet_str {code name : String}
    (hc : List.lookup code LOCATION_MAP = some name) :
    locationMapGet code = .str name ∧ (locationMapGet code).truthy = true := by
  have hs : locationMapGet code = .str name := by simp [locationMapGet, hc]
  refine ⟨hs, ?_⟩
  rw [hs]
  simp [PropValue.truthy, lookup_name_nonempty hc]

/-- When normalization throws, the route's `catch` sees an error with no
`response` object and answers the generic 500 body. -/
theorem handler_norm_err {code name : String} {apiKey : Option String} {ub : UpBody}
    {ld : LocationData}
    (hc : List.lookup code LOCATION_MAP = some name)
    (hk : keyMissing apiKey = false)
    (hld : ub.records.location.head? = some ld)
    (hn : exceptOk (normalizeLocation ub.records.datasetDescription ld) = false) :
    getWeatherByLocation code apiKey (.success ub) = ⟨500, genericErrorBody⟩ := by
  have htr := (locationMapGet_str hc).2
  cases hnorm : normalizeLocation ub.records.datasetDescription ld with
  | ok wd => rw [hnorm] at hn; exact absurd hn (by simp [exceptOk])
  | error s => simp only [getWeatherByLocation, htr, hk, hld, hnorm]; rfl

/-! ### Concrete payloads used by witnesses and counterexamples -/

def wWx : WeatherElement := ⟨"Wx", [⟨"a0", "a1", some ⟨"晴"⟩⟩, ⟨"a1", "a2", some ⟨"雨"⟩⟩]⟩

def wPoP : WeatherElement := ⟨"PoP", [⟨"a0", "a1", some ⟨"30"⟩⟩, ⟨"a1", "a2", none⟩]⟩

def wMinT : WeatherElement := ⟨"MinT", [⟨"a0", "a1", some ⟨"20"⟩⟩, ⟨"a1", "a2", none⟩]⟩

def wMaxT : WeatherElement := ⟨"MaxT", [⟨"a0", "a1", some ⟨"28"⟩⟩, ⟨"a1", "a2", none⟩]⟩

def wCI : WeatherElement := ⟨"CI", [⟨"a0", "a1", some ⟨"舒適"⟩⟩, ⟨"a1", "a2", some ⟨"悶熱"⟩⟩]⟩

def wWS : WeatherElement := ⟨"WS", [⟨"a0", "a1", some ⟨"3"⟩⟩, ⟨"a1", "a2", some ⟨"4"⟩⟩]⟩

def wLD : LocationData := ⟨"高雄市", [wWx, wPoP, wMinT, wMaxT, wCI, wWS]⟩

def wWD : WeatherData :=
  ⟨"高雄市", "desc",
   [⟨"a0", "a1", "晴", "30%", "20°C", "28°C", "舒適", "3"⟩,
    ⟨"a1", "a2", "雨", "0%", "-°C", "-°C", "悶熱", "4"⟩]⟩

def cWx : WeatherElement := ⟨"Wx", [⟨"a0", "a1", some ⟨"晴"⟩⟩]⟩

def cShortPoP : WeatherElement := ⟨"PoP", []⟩

def cLD : LocationData := ⟨"高雄市", [cWx, cShortPoP]⟩

def cUB : UpBody := ⟨⟨"d", [cLD]⟩⟩

def c9Wx : WeatherElement := ⟨"Wx", [⟨"a0", "a1", none⟩]⟩

def c9LD : LocationData := ⟨"臺北市", [c9Wx]⟩

def c9UB : UpBody := ⟨⟨"d9", [c9LD]⟩⟩

/-! ### Claims -/

/-- C1: for every upstream payload whose first location entry is present,
whenever normalization produces a result it has exactly
`weatherElements[0].time.length` forecast slots, and slot `i` takes its
`startTime` and `endTime` from element 0's `i`-th time entry, so output
slot order equals input time-series order with no sorting and no
deduplication. -/
theorem C1_slot_count_and_order {d : String} {ld : LocationData}
    {e0 : WeatherElement} {rest : List WeatherElement}
    (hw : ld.weatherElement = e0 :: rest)
    {r : WeatherData} (hok : normalizeLocation d ld = .ok r) :
    r.forecasts.length = e0.time.length ∧
    ∀ i : Nat, i < e0.time.length →
      ∃ te f, e0.time[i]? = some te ∧ r.forecasts[i]? = some f ∧
        f.startTime = te.startTime ∧ f.endTime = te.endTime := by
  unfold normalizeLocation at hok
  rw [hw] at hok
  dsimp only at hok
  cases hb : buildSlots (e0 :: rest) e0.time (List.range e0.time.length) with
  | error s => rw [hb] at hok; exact Except.noConfusion hok
  | ok fs =>
    rw [hb] at hok
    injection hok with hok
    subst hok
    obtain ⟨hlen, hget⟩ := buildSlots_spec hb
    rw [List.length_range] at hlen
    refine ⟨hlen, ?_⟩
    intro i hi
    have hr : (List.range e0.time.length)[i]? = some i := by
      simp [List.getElem?_range, hi]
    obtain ⟨f, hf, hslot⟩ := hget i i hr
    unfold buildSlot at hslot
    cases hti : e0.time[i]? with
    | none => rw [hti] at hslot; exact Except.noConfusion hslot
    | some te =>
      rw [hti] at hslot
      obtain ⟨hs, he⟩ := applyAll_start_end hslot
      exact ⟨te, f, rfl, hf, hs, he⟩

/-- Witness for C1: a six-element, two-slot payload on which
normalization succeeds, with the conclusion instantiated at slot 1. -/
theorem C1_witness :
    wLD.weatherElement = wWx :: [wPoP, wMinT, wMaxT, wCI, wWS] ∧
    normalizeLocation "desc" wLD = .ok wWD ∧
    wWD.forecasts.length = wWx.time.length ∧
    ∃ te f, wWx.time[1]? = some te ∧ wWD.forecasts[1]? = some f ∧
      f.startTime = te.startTime ∧ f.endTime = te.endTime := by
  have h1 : wLD.weatherElement = wWx :: [wPoP, wMinT, wMaxT, wCI, wWS] := rfl
  have h2 : normalizeLocation "desc" wLD = .ok wWD := by rfl
  have h3 := C1_slot_count_and_order h1 h2
  exact ⟨h1, h2, h3.1, h3.2 1 (by decide)⟩

/-- C3: for every slot index, an absent `PoP` parameter yields rain
exactly `"0%"`, an absent `MinT`/`MaxT` parameter yields exactly
`"-°C"`, and a present parameter yields its display name suffixed with
`"%"` or `"°C"` respectively. -/
theorem C3_pop_temp_defaults_and_suffixes {i : Nat} {e : WeatherElement} {te : TimeEntry}
    (hte : e.time[i]? = some te) (f : Forecast) :
    (te.parameter = none →
      (e.elementName = "PoP" → applyElement i f e = .ok { f with rain := "0%" }) ∧
      (e.elementName = "MinT" → applyElement i f e = .ok { f with minTemp := "-°C" }) ∧
      (e.elementName = "MaxT" → applyElement i f e = .ok { f with maxTemp := "-°C" })) ∧
    (∀ p, te.parameter = some p →
      (e.elementName = "PoP" → applyElement i f e = .ok { f with rain := p.parameterName ++ "%" }) ∧
      (e.elementName = "MinT" → applyElement i f e = .ok { f with minTemp := p.parameterName ++ "°C" }) ∧
      (e.elementName = "MaxT" → applyElement i f e = .ok { f with maxTemp := p.parameterName ++ "°C" })) :=
  ⟨fun hp => applyElement_absent_defaults hte hp f,
   fun _ hp => applyElement_present_suffix hte hp f⟩

/-- Witness for C3: the `PoP` element of the witness payload, at slot 1
(parameter absent, rain `"0%"`) and slot 0 (parameter `"30"`, rain
`"30%"`). -/
theorem C3_witness :
    wPoP.time[1]? = some ⟨"a1", "a2", none⟩ ∧
    applyElement 1 (initForecast ⟨"a1", "a2", none⟩) wPoP =
      .ok { initForecast ⟨"a1", "a2", none⟩ with rain := "0%" } ∧
    wPoP.time[0]? = some ⟨"a0", "a1", some ⟨"30"⟩⟩ ∧
    applyElement 0 (initForecast ⟨"a0", "a1", some ⟨"30"⟩⟩) wPoP =
      .ok { initForecast ⟨"a0", "a1", some ⟨"30"⟩⟩ with rain := "30%" } := by
  refine ⟨rfl, ?_, rfl, ?_⟩
  · exact ((C3_pop_temp_defaults_and_suffixes rfl _).1 rfl).1 rfl
  · exact ((C3_pop_temp_defaults_and_suffixes rfl _).2 ⟨"30"⟩ rfl).1 rfl

/-- C4 counterexample: a payload whose `PoP` element has fewer time
entries than element 0. Contrary to the claim, normalization does not
complete: reading `element.time[i].parameter` throws, and the route
answers 500 instead of leaving the field blank. -/
theorem C4_cex :
    cShortPoP.time.length < cWx.time.length ∧
    exceptOk (normalizeLocation "d" cLD) = false ∧
    (getWeatherByLocation "kaohsiung" (some "key") (.success cUB)).status = 500 := by
  exact ⟨by decide, by rfl, by rfl⟩

/-- C4 amended: for every payload in which some weather element has
fewer time entries than element 0, slot construction throws a TypeError
when it reaches the missing entry, so normalization fails and the route
responds 500 with the generic error body (fields are left blank only
when a tag never appears, not when an element is shorter). -/
theorem C4_amended {d : String} {ld : LocationData} {e0 : WeatherElement}
    {rest : List WeatherElement} (hw : ld.weatherElement = e0 :: rest)
    {e : WeatherElement} (hmem : e ∈ ld.weatherElement)
    (hshort : e.time.length < e0.time.length) :
    exceptOk (normalizeLocation d ld) = false ∧
    ∀ code name apiKey ub,
      List.lookup code LOCATION_MAP = some name → keyMissing apiKey = false →
      ub.records.location.head? = some ld → ub.records.datasetDescription = d →
      getWeatherByLocation code apiKey (.success ub) = ⟨500, genericErrorBody⟩ := by
  have herr : ∀ f, exceptOk (applyElement e.time.length f e) = false := by
    intro f
    apply applyElement_err_short
    simp
  have hbs : exceptOk (buildSlots ld.weatherElement e0.time (List.range e0.time.length)) = false :=
    buildSlots_err (List.mem_range.mpr hshort) (buildSlot_err hmem herr)
  have hnorm : exceptOk (normalizeLocation d ld) = false := normalizeLocation_err hw hbs
  refine ⟨hnorm, ?_⟩
  intro code name apiKey ub hc hk hld hdesc
  subst hdesc
  exact handler_norm_err hc hk hld hnorm

/-- Witness for C4's amended theorem, at the counterexample payload. -/
theorem C4_witness :
    cLD.weatherElement = cWx :: [cShortPoP] ∧
    cShortPoP ∈ cLD.weatherElement ∧
    cShortPoP.time.length < cWx.time.length ∧
    exceptOk (normalizeLocation "d" cLD) = false ∧
    getWeatherByLocation "kaohsiung" (some "key") (.success cUB) = ⟨500, genericErrorBody⟩ := by
  have h := @C4_amended "d" cLD cWx [cShortPoP] rfl cShortPoP
    (show cShortPoP ∈ cLD.weatherElement by decide) (by decide)
  exact ⟨rfl, by decide, by decide, h.1,
    h.2 "kaohsiung" "高雄市" (some "key") cUB rfl rfl rfl rfl⟩

/-- C9: a `Wx`, `CI` or `WS` element whose `i`-th time entry has no
parameter makes slot construction throw (the route answers 500 with the
generic body), unlike `PoP`/`MinT`/`MaxT`, which default to `"0%"` and
`"-°C"`. -/
theorem C9_strict_tags_error {d : String} {ld : LocationData} {e0 : WeatherElement}
    {rest : List WeatherElement} (hw : ld.weatherElement = e0 :: rest)
    {e : WeatherElement} (hmem : e ∈ ld.weatherElement) {i : Nat} {te : TimeEntry}
    (hi : i < e0.time.length) (hte : e.time[i]? = some te) (hp : te.parameter = none)
    (htag : e.elementName = "Wx" ∨ e.elementName = "CI" ∨ e.elementName = "WS") :
    exceptOk (normalizeLocation d ld) = false ∧
    (∀ code name apiKey ub,
      List.lookup code LOCATION_MAP = some name → keyMissing apiKey = false →
      ub.records.location.head? = some ld → ub.records.datasetDescription = d →
      getWeatherByLocation code apiKey (.success ub) = ⟨500, genericErrorBody⟩) ∧
    (∀ (e2 : WeatherElement) (te2 : TimeEntry) (f : Forecast),
      e2.time[i]? = some te2 → te2.parameter = none →
      (e2.elementName = "PoP" → applyElement i f e2 = .ok { f with rain := "0%" }) ∧
      (e2.elementName = "MinT" → applyElement i f e2 = .ok { f with minTemp := "-°C" }) ∧
      (e2.elementName = "MaxT" → applyElement i f e2 = .ok { f with maxTemp := "-°C" })) := by
  have herr : ∀ f, exceptOk (applyElement i f e) = false :=
    applyElement_err_absent hte hp htag
  have hbs : exceptOk (buildSlots ld.weatherElement e0.time (List.range e0.time.length)) = false :=
    buildSlots_err (List.mem_range.mpr hi) (buildSlot_err hmem herr)
  have hnorm : exceptOk (normalizeLocation d ld) = false := normalizeLocation_err hw hbs
  refine ⟨hnorm, ?_, ?_⟩
  · intro code name apiKey ub hc hk hld hdesc
    subst hdesc
    exact handler_norm_err hc hk hld hnorm
  · intro e2 te2 f hte2 hp2
    exact applyElement_absent_defaults hte2 hp2 f

/-- Witness for C9: a payload whose only element is a `Wx` with an
absent parameter at slot 0; the route answers 500, while a `PoP`
element with an absent parameter at slot 0 defaults to `"0%"`. -/
theorem C9_witness :
    c9LD.weatherElement = c9Wx :: [] ∧
    c9Wx ∈ c9LD.weatherElement ∧
    (0 : Nat) < c9Wx.time.length ∧
    c9Wx.time[0]? = some ⟨"a0", "a1", none⟩ ∧
    c9Wx.elementName = "Wx" ∧
    exceptOk (normalizeLocation "d9" c9LD) = false ∧
    getWeatherByLocation "taipei" (some "key") (.success c9UB) = ⟨500, genericErrorBody⟩ ∧
    applyElement 0 (initForecast ⟨"a0", "a1", none⟩) ⟨"PoP", [⟨"a0", "a1", none⟩]⟩ =
      .ok { initForecast ⟨"a0", "a1", none⟩ with rain := "0%" } := by
  have h := @C9_strict_tags_error "d9" c9LD c9Wx [] rfl c9Wx
    (show c9Wx ∈ c9LD.weatherElement by decide) 0 ⟨"a0", "a1", none⟩ (by decide)
    rfl rfl (Or.inl rfl)
  exact ⟨rfl, by decide, by decide, rfl, rfl, h.1,
    h.2.1 "taipei" "臺北市" (some "key") c9UB rfl rfl rfl rfl,
    (h.2.2 ⟨"PoP", [⟨"a0", "a1", none⟩]⟩ ⟨"a0", "a1", none⟩ (initForecast ⟨"a0", "a1", none⟩) rfl rfl).1 rfl⟩

/-- C10: when two or more elements carry the same recognized tag, the
forecast field of that tag ends up with the value written by the last
such element (the value any application of that element writes,
independently of the forecast it updates); in particular for `Wx` the
field equals the last element's parameter display name. No error and no
deduplication occurs. -/
theorem C10_last_duplicate_wins {i : Nat} {f : Forecast} {xs ys : List WeatherElement}
    {e2 : WeatherElement} {tag : String}
    (hrec : tag = "Wx" ∨ tag = "PoP" ∨ tag = "MinT" ∨ tag = "MaxT" ∨ tag = "CI" ∨ tag = "WS")
    (htag : e2.elementName = tag)
    (hys : ∀ e ∈ ys, e.elementName ≠ tag)
    {g : Forecast} (hok : applyAll i f (xs ++ e2 :: ys) = .ok g) :
    (∀ f2 g2, applyElement i f2 e2 = .ok g2 → fieldOf tag g = fieldOf tag g2) ∧
    (∀ te2 p, e2.time[i]? = some te2 → te2.parameter = some p → tag = "Wx" →
      g.weather = p.parameterName) := by
  have hsplit := @applyAll_append i (e2 :: ys) xs f
  rw [hsplit] at hok
  cases hxs : applyAll i f xs with
  | error s => rw [hxs] at hok; exact Except.noConfusion hok
  | ok m =>
    rw [hxs] at hok
    dsimp only at hok
    rw [show applyAll i m (e2 :: ys) =
          match applyElement i m e2 with
          | .ok g1 => applyAll i g1 ys
          | .error s => .error s from rfl] at hok
    cases hm : applyElement i m e2 with
    | error s => rw [hm] at hok; exact Except.noConfusion hok
    | ok m2 =>
      rw [hm] at hok
      dsimp only at hok
      have hpres := applyAll_fieldOf_preserved hys hok
      cases hte2m : e2.time[i]? with
      | none => exact absurd hm (by simp [applyElement, hte2m])
      | some te2 =>
        have w1 := applyElement_writes_value hte2m hm
        constructor
        · intro f2 g2 h2
          have w2 := applyElement_writes_value hte2m h2
          rw [hpres]
          rcases hrec with h | h | h | h | h | h <;> subst h
          · obtain ⟨p1, hp1, hv1⟩ := w1.1 htag
            obtain ⟨p2, hp2, hv2⟩ := w2.1 htag
            rw [hp1] at hp2
            injection hp2 with hp2
            show m2.weather = g2.weather
            rw [hv1, hv2, hp2]
          · show m2.rain = g2.rain
            rw [w1.2.1 htag, w2.2.1 htag]
          · show m2.minTemp = g2.minTemp
            rw [w1.2.2.1 htag, w2.2.2.1 htag]
          · show m2.maxTemp = g2.maxTemp
            rw [w1.2.2.2.1 htag, w2.2.2.2.1 htag]
          · obtain ⟨p1, hp1, hv1⟩ := w1.2.2.2.2.1 htag
            obtain ⟨p2, hp2, hv2⟩ := w2.2.2.2.2.1 htag
            rw [hp1] at hp2
            injection hp2 with hp2
            show m2.comfort = g2.comfort
            rw [hv1, hv2, hp2]
          · obtain ⟨p1, hp1, hv1⟩ := w1.2.2.2.2.2 htag
            obtain ⟨p2, hp2, hv2⟩ := w2.2.2.2.2.2 htag
            rw [hp1] at hp2
            injection hp2 with hp2
            show m2.windSpeed = g2.windSpeed
            rw [hv1, hv2, hp2]
        · intro te2b p htb hp htw
          subst htw
          injection htb with htb
          subst htb
          obtain ⟨p1, hp1, hv1⟩ := w1.1 htag
          rw [hp] at hp1
          injection hp1 with hp1
          show fieldOf "Wx" g = _
          rw [hpres]
          show m2.weather = p.parameterName
          rw [hv1, hp1]

def dWx1 : WeatherElement := ⟨"Wx", [⟨"a0", "a1", some ⟨"first"⟩⟩]⟩

def dWx2 : WeatherElement := ⟨"Wx", [⟨"a0", "a1", some ⟨"second"⟩⟩]⟩

def dG : Forecast := ⟨"a0", "a1", "second", "30%", "", "", "", ""⟩

/-- Witness for C10: two `Wx` elements followed by a `PoP` element; the
weather field carries the second `Wx` element's display name. -/
theorem C10_witness :
    dWx2.elementName = "Wx" ∧
    wPoP.elementName ≠ "Wx" ∧
    applyAll 0 (initForecast ⟨"a0", "a1", none⟩) ([dWx1] ++ dWx2 :: [wPoP]) = .ok dG ∧
    fieldOf "Wx" dG =
      fieldOf "Wx" { initForecast ⟨"a0", "a1", none⟩ with weather := "second" } ∧
    dG.weather = Parameter.parameterName ⟨"second"⟩ := by
  have h := C10_last_duplicate_wins (Or.inl rfl) (rfl : dWx2.elementName = "Wx")
    (by decide) (by rfl : applyAll 0 (initForecast ⟨"a0", "a1", none⟩)
      ([dWx1] ++ dWx2 :: [wPoP]) = .ok dG)
  exact ⟨rfl, by decide, by rfl,
    h.1 (initForecast ⟨"a0", "a1", none⟩)
      { initForecast ⟨"a0", "a1", none⟩ with weather := "second" } rfl,
    h.2 ⟨"a0", "a1", some ⟨"second"⟩⟩ ⟨"second"⟩ rfl rfl rfl⟩

/-- C2 counterexample: `constructor` is outside the configured set, yet
the property read hits `Object.prototype`, the `!locationName` guard is
skipped, and the route does not answer 400 with the supported list: it
proceeds to the credential check (500 when the key is missing) and to
the upstream call (here a transport failure, 500). -/
theorem C2_cex :
    List.lookup "constructor" LOCATION_MAP = none ∧
    locationMapGet "constructor" = .inherited "constructor" ∧
    getWeatherByLocation "constructor" none .transport =
      ⟨500, .obj [("error", .str "伺服器設定錯誤"),
                  ("message", .str "請在 .env 檔案中設定 CWA_API_KEY")]⟩ ∧
    (getWeatherByLocation "constructor" (some "key") .transport).status = 500 ∧
    (getWeatherByLocation "constructor" (some "key") .transport).body.hasField
      "supported_locations" = false :=
  ⟨rfl, rfl, rfl, rfl, rfl⟩

/-- C2 amended: every supported code resolves to a non-empty canonical
name; every code outside the set whose property read yields `undefined`
(any code that is not an `Object.prototype` member name) makes the
route answer 400 with `supported_locations` equal to exactly the
configured key set; a code naming an inherited `Object.prototype`
member skips the 400 guard: no response of the route carries
`supported_locations`, and with no credential it reaches the 500
configuration error. -/
theorem C2_amended_resolution (code : String) :
    (∀ name, List.lookup code LOCATION_MAP = some name → name ≠ "") ∧
    (locationMapGet code = .undefinedVal →
      ∀ apiKey upstream,
        (getWeatherByLocation code apiKey upstream).status = 400 ∧
        (getWeatherByLocation code apiKey upstream).body.getField "supported_locations" =
          some (.arr ((LOCATION_MAP.map Prod.fst).map Json.str)) ∧
        LOCATION_MAP.map Prod.fst = ["kaohsiung", "taipei", "taichung", "miaoli"]) ∧
    (∀ n, locationMapGet code = .inherited n →
      (∀ apiKey upstream,
        (getWeatherByLocation code apiKey upstream).body.hasField "supported_locations" = false) ∧
      (∀ upstream, getWeatherByLocation code none upstream =
        ⟨500, .obj [("error", .str "伺服器設定錯誤"),
                    ("message", .str "請在 .env 檔案中設定 CWA_API_KEY")]⟩)) := by
  refine ⟨fun name h => lookup_name_nonempty h, ?_, ?_⟩
  · intro hm apiKey upstream
    have htr : (locationMapGet code).truthy = false := by rw [hm]; rfl
    refine ⟨?_, ?_, rfl⟩
    · simp only [getWeatherByLocation, htr]
      rfl
    · simp only [getWeatherByLocation, htr]
      rfl
  · intro n hn
    have htr : (locationMapGet code).truthy = true := by rw [hn]; rfl
    constructor
    · intro apiKey upstream
      cases hk : keyMissing apiKey with
      | true => simp only [getWeatherByLocation, htr, hk]; rfl
      | false =>
        cases upstream with
        | transport => simp only [getWeatherByLocation, htr, hk]; rfl
        | httpError st d => simp only [getWeatherByLocation, htr, hk]; rfl
        | success ub =>
          cases hh : ub.records.location.head? with
          | none => simp only [getWeatherByLocation, htr, hk, hh]; rfl
          | some ld =>
            cases hnorm : normalizeLocation ub.records.datasetDescription ld with
            | error s => simp only [getWeatherByLocation, htr, hk, hh, hnorm]; rfl
            | ok wd => simp only [getWeatherByLocation, htr, hk, hh, hnorm]; rfl
    · intro upstream
      simp only [getWeatherByLocation, htr]
      rfl

/-- Witness for C2's amended theorem: `kaohsiung` resolves non-empty;
`london` reads as `undefined` and is rejected with 400 and the full key
list; `toString` reads as an inherited member, no `supported_locations`
field appears, and a missing key yields the 500 configuration body. -/
theorem C2_amended_witness :
    List.lookup "kaohsiung" LOCATION_MAP = some "高雄市" ∧ "高雄市" ≠ "" ∧
    locationMapGet "london" = .undefinedVal ∧
    (getWeatherByLocation "london" (some "key") .transport).status = 400 ∧
    (getWeatherByLocation "london" (some "key") .transport).body.getField "supported_locations" =
      some (.arr [.str "kaohsiung", .str "taipei", .str "taichung", .str "miaoli"]) ∧
    locationMapGet "toString" = .inherited "toString" ∧
    (getWeatherByLocation "toString" (some "key") .transport).body.hasField
      "supported_locations" = false ∧
    getWeatherByLocation "toString" none .transport =
      ⟨500, .obj [("error", .str "伺服器設定錯誤"),
                  ("message", .str "請在 .env 檔案中設定 CWA_API_KEY")]⟩ := by
  refine ⟨rfl, (C2_amended_resolution "kaohsiung").1 "高雄市" rfl, rfl, ?_, ?_, rfl, ?_, ?_⟩
  · exact ((C2_amended_resolution "london").2.1 rfl (some "key") .transport).1
  · exact ((C2_amended_resolution "london").2.1 rfl (some "key") .transport).2.1
  · exact ((C2_amended_resolution "toString").2.2 "toString" rfl).1 (some "key") .transport
  · exact ((C2_amended_resolution "toString").2.2 "toString" rfl).2 .transport

/-- C5 counterexample: the unmatched-route 404 handler's body has an
`error` field but no `message` field, so not every failure response
carries at least `error` and `message` as the claim states. -/
theorem C5_cex :
    notFoundResponse.status = 404 ∧
    notFoundResponse.body.hasField "error" = true ∧
    notFoundResponse.body.hasField "message" = false :=
  ⟨rfl, rfl, rfl⟩

/-- C5 amended: every failure response of the weather route (any
response whose body lacks the success marker) carries at least `error`
and `message`, as does the final error middleware; the unmatched-route
404 body carries only `error`. -/
theorem C5_amended_failure_bodies :
    (∀ code apiKey upstream,
      (getWeatherByLocation code apiKey upstream).body.hasField "success" = false →
      (getWeatherByLocation code apiKey upstream).body.hasField "error" = true ∧
      (getWeatherByLocation code apiKey upstream).body.hasField "message" = true) ∧
    (∀ msg, (errorMiddlewareResponse msg).body.hasField "error" = true ∧
      (errorMiddlewareResponse msg).body.hasField "message" = true) ∧
    notFoundResponse.body.hasField "error" = true ∧
    notFoundResponse.body.hasField "message" = false := by
  refine ⟨?_, fun msg => ⟨rfl, rfl⟩, rfl, rfl⟩
  intro code apiKey upstream
  cases hl : (locationMapGet code).truthy with
  | false =>
    intro _
    constructor <;> (simp only [getWeatherByLocation, hl]; rfl)
  | true =>
    cases hk : keyMissing apiKey with
    | true =>
      intro _
      constructor <;> (simp only [getWeatherByLocation, hl, hk]; rfl)
    | false =>
      cases upstream with
      | transport =>
        intro _
        constructor <;> (simp only [getWeatherByLocation, hl, hk]; rfl)
      | httpError st d =>
        intro _
        constructor <;> (simp only [getWeatherByLocation, hl, hk]; rfl)
      | success ub =>
        cases hh : ub.records.location.head? with
        | none =>
          intro _
          constructor <;> (simp only [getWeatherByLocation, hl, hk, hh]; rfl)
        | some ld =>
          cases hn : normalizeLocation ub.records.datasetDescription ld with
          | error s =>
            intro _
            constructor <;> (simp only [getWeatherByLocation, hl, hk, hh, hn]; rfl)
          | ok wd =>
            intro hfalse
            have ht : (getWeatherByLocation code apiKey (.success ub)).body.hasField "success" = true := by
              simp only [getWeatherByLocation, hl, hk, hh, hn]
              rfl
            rw [ht] at hfalse
            exact Bool.noConfusion hfalse

/-- Witness for C5's amended theorem: the transport-failure 500 body of
the weather route has both fields. -/
theorem C5_witness :
    (getWeatherByLocation "london" none .transport).body.hasField "success" = false ∧
    (getWeatherByLocation "london" none .transport).body.hasField "error" = true ∧
    (getWeatherByLocation "london" none .transport).body.hasField "message" = true := by
  have h := C5_amended_failure_bodies.1 "london" none .transport rfl
  exact ⟨rfl, h.1, h.2⟩

/-- C6: for every valid code, a missing or empty credential makes the
route answer the fixed 500 configuration-error body, independently of
the upstream outcome (so no outbound call is observable). -/
theorem C6_missing_key_no_call {code name : String}
    (hc : List.lookup code LOCATION_MAP = some name)
    {apiKey : Option String} (hk : apiKey = none ∨ apiKey = some "") :
    (∀ upstream, getWeatherByLocation code apiKey upstream =
      ⟨500, .obj [("error", .str "伺服器設定錯誤"),
                  ("message", .str "請在 .env 檔案中設定 CWA_API_KEY")]⟩) ∧
    (∀ u1 u2, getWeatherByLocation code apiKey u1 = getWeatherByLocation code apiKey u2) := by
  have hkm : keyMissing apiKey = true := by rcases hk with h | h <;> subst h <;> rfl
  have htr := (locationMapGet_str hc).2
  have hmain : ∀ upstream, getWeatherByLocation code apiKey upstream =
      ⟨500, .obj [("error", .str "伺服器設定錯誤"),
                  ("message", .str "請在 .env 檔案中設定 CWA_API_KEY")]⟩ := by
    intro upstream
    simp only [getWeatherByLocation, htr, hkm]
    rfl
  exact ⟨hmain, fun u1 u2 => (hmain u1).trans (hmain u2).symm⟩

/-- Witness for C6: `kaohsiung` with no configured key answers the 500
configuration body, identically for two different upstream outcomes. -/
theorem C6_witness :
    List.lookup "kaohsiung" LOCATION_MAP = some "高雄市" ∧
    getWeatherByLocation "kaohsiung" none .transport =
      ⟨500, .obj [("error", .str "伺服器設定錯誤"),
                  ("message", .str "請在 .env 檔案中設定 CWA_API_KEY")]⟩ ∧
    getWeatherByLocation "kaohsiung" none .transport =
      getWeatherByLocation "kaohsiung" none (.success cUB) := by
  have h := C6_missing_key_no_call (rfl : List.lookup "kaohsiung" LOCATION_MAP = some "高雄市")
    (Or.inl rfl)
  exact ⟨rfl, h.1 .transport, h.2 .transport (.success cUB)⟩

/-- C7: a successful upstream response with an empty location array
makes the route answer 404 with an `error` field (and `message`) and no
`data` field. -/
theorem C7_empty_location_404 {code name : String}
    (hc : List.lookup code LOCATION_MAP = some name)
    {apiKey : Option String} (hk : keyMissing apiKey = false)
    {ub : UpBody} (hloc : ub.records.location = []) :
    (getWeatherByLocation code apiKey (.success ub)).status = 404 ∧
    (getWeatherByLocation code apiKey (.success ub)).body.hasField "error" = true ∧
    (getWeatherByLocation code apiKey (.success ub)).body.hasField "message" = true ∧
    (getWeatherByLocation code apiKey (.success ub)).body.hasField "data" = false := by
  have hh : ub.records.location.head? = none := by rw [hloc]; rfl
  have htr := (locationMapGet_str hc).2
  refine ⟨?_, ?_, ?_, ?_⟩ <;> (simp only [getWeatherByLocation, htr, hk, hh]; rfl)

def c7UB : UpBody := ⟨⟨"d7", []⟩⟩

/-- Witness for C7, at an upstream body with an empty location array. -/
theorem C7_witness :
    List.lookup "miaoli" LOCATION_MAP = some "苗栗縣" ∧
    keyMissing (some "key") = false ∧
    c7UB.records.location = [] ∧
    (getWeatherByLocation "miaoli" (some "key") (.success c7UB)).status = 404 ∧
    (getWeatherByLocation "miaoli" (some "key") (.success c7UB)).body.hasField "error" = true ∧
    (getWeatherByLocation "miaoli" (some "key") (.success c7UB)).body.hasField "data" = false := by
  have h := C7_empty_location_404 (rfl : List.lookup "miaoli" LOCATION_MAP = some "苗栗縣")
    (rfl : keyMissing (some "key") = false) (rfl : c7UB.records.location = [])
  exact ⟨rfl, rfl, rfl, h.1, h.2.1, h.2.2.2⟩

/-- C8: an upstream HTTP-error rejection is mapped 1:1 to the upstream
status with `error`, `message` and `details` (the upstream body); a
transport failure with no response object is mapped to the generic 500
body without `details`. -/
theorem C8_upstream_error_mapping {code name : String}
    (hc : List.lookup code LOCATION_MAP = some name)
    {apiKey : Option String} (hk : keyMissing apiKey = false) :
    (∀ st d, getWeatherByLocation code apiKey (.httpError st d) =
      ⟨st, .obj [("error", .str "CWA API 錯誤"), ("message", upstreamMessage d),
                 ("details", d)]⟩) ∧
    (∀ st d, (getWeatherByLocation code apiKey (.httpError st d)).body.getField "details" =
      some d) ∧
    getWeatherByLocation code apiKey .transport = ⟨500, genericErrorBody⟩ ∧
    (getWeatherByLocation code apiKey .transport).body.hasField "details" = false ∧
    (getWeatherByLocation code apiKey .transport).body.hasField "error" = true ∧
    (getWeatherByLocation code apiKey .transport).body.hasField "message" = true := by
  have htr := (locationMapGet_str hc).2
  refine ⟨fun st d => ?_, fun st d => ?_, ?_, ?_, ?_, ?_⟩ <;>
    (simp only [getWeatherByLocation, htr, hk]; rfl)

def c8D : Json := .obj [("message", .str "rate limited")]

/-- Witness for C8, at upstream status 429 with a message body, and at a
transport failure. -/
theorem C8_witness :
    List.lookup "taichung" LOCATION_MAP = some "臺中市" ∧
    getWeatherByLocation "taichung" (some "key") (.httpError 429 c8D) =
      ⟨429, .obj [("error", .str "CWA API 錯誤"), ("message", .str "rate limited"),
                  ("details", c8D)]⟩ ∧
    (getWeatherByLocation "taichung" (some "key") (.httpError 429 c8D)).body.getField "details" =
      some c8D ∧
    getWeatherByLocation "taichung" (some "key") .transport = ⟨500, genericErrorBody⟩ ∧
    (getWeatherByLocation "taichung" (some "key") .transport).body.hasField "details" = false := by
  have h := C8_upstream_error_mapping (rfl : List.lookup "taichung" LOCATION_MAP = some "臺中市")
    (rfl : keyMissing (some "key") = false)
  exact ⟨rfl, h.1 429 c8D, h.2.1 429 c8D, h.2.2.1, h.2.2.2.1⟩

end Cwa
